import Mathlib

/-
Verification of the real-time classroom session core of this repository.

The embedding models, directly from the source:
  * src/src/components/RemoteClassroom/TeacherInterface.tsx
      (teacher component state and its socket event handlers and actions)
  * src/src/components/RemoteClassroom/StudentInterface.tsx
      (student component state and its socket event handlers and actions)
  * src/unnamed/part_001  (the useSocket hook: gated send and the
      connection lifecycle handlers over socket.io-client)

JavaScript objects used as string-keyed dictionaries (poll `responses`,
and the per-participant vote map the spec describes) are modelled as
association lists with update-in-place-or-append semantics, which is
exactly the behaviour of the object spread `{...m, [k]: v}`.
Fields of the React components that carry wall-clock or random data
(message `id`, `timestamp`, the random `studentName` suffix, the
simulated `connectionQuality`) are either omitted or taken as opaque
parameters; no claim depends on them.
-/

namespace Classroom

/-- Helper for `jsTrim`: drop leading whitespace characters. -/
def dropLeadingWS : List Char → List Char
  | [] => []
  | c :: rest => if c.isWhitespace then dropLeadingWS rest else c :: rest

/-- JavaScript `String.prototype.trim()` (used by both components'
guards): strip whitespace from both ends.  Written as structural
recursion over the character list so that it evaluates inside the
kernel on concrete inputs. -/
def jsTrim (s : String) : String :=
  ⟨dropLeadingWS (dropLeadingWS s.data.reverse).reverse⟩

/-- Lookup in a string-keyed association list: first binding wins
(JS objects never hold duplicate keys, and every map below is built
from the empty map by `setKey`, so keys are in fact unique). -/
def getEntry? {α : Type} : List (String × α) → String → Option α
  | [], _ => none
  | e :: rest, k => if e.1 = k then some e.2 else getEntry? rest k

/-- Key membership test for an association list. -/
def hasKey {α : Type} (m : List (String × α)) (k : String) : Bool :=
  (getEntry? m k).isSome

/-- Update-or-append, the semantics of the object spread
`{...m, [k]: v}`: if `k` is bound its binding is replaced in place,
otherwise `(k, v)` is appended in insertion order. -/
def setKey {α : Type} : List (String × α) → String → α → List (String × α)
  | [], k, v => [(k, v)]
  | e :: rest, k, v => if e.1 = k then (k, v) :: rest else e :: setKey rest k v

/-- Numeric lookup defaulting to zero, the semantics of
`m[k] || 0` in TeacherInterface.tsx line 60. -/
def getCount (m : List (String × Nat)) (k : String) : Nat :=
  (getEntry? m k).getD 0

/-- One received vote: `responses[option] = (responses[option] || 0) + 1`,
TeacherInterface.tsx lines 58-61. -/
def bump (m : List (String × Nat)) (k : String) : List (String × Nat) :=
  setKey m k (getCount m k + 1)

/-- Poll, from `interface Poll` in TeacherInterface.tsx lines 18-22:
a question, the option labels, and the response counts keyed by
option label. -/
structure Poll where
  question : String
  options : List String
  responses : List (String × Nat)
deriving DecidableEq, Repr

/-- Chat message, from `interface Message` (sender and text; the
clock-derived `id` and `timestamp` fields are not modelled). -/
structure ChatMessage where
  sender : String
  text : String
deriving DecidableEq, Repr

/-- Messages emitted over the socket by the components
(the `sendMessage(event, payload)` calls). -/
inductive Emit where
  | chatMessage (sender text : String)
  | pollCreated (p : Poll)
  | pollClosed
  | pollResponse (opt : String)
  | studentJoined (name : String)
  | studentLeft (name : String)
  | joinRoomReq (room : String)
deriving DecidableEq, Repr

/-- The fixed room id used by both components. -/
def roomId : String := "classroom-main"

/-- Teacher component state, from the `useState` hooks of
TeacherInterface.tsx lines 26-34 (audio/recording widgets omitted:
no claim touches them). -/
structure TeacherState where
  isSessionActive : Bool
  messages : List ChatMessage
  newMessage : String
  connectedStudents : Nat
  currentPoll : Option Poll
  pollQuestion : String
  pollOptions : List String
deriving DecidableEq, Repr

/-- Initial teacher state (the `useState` initialisers). -/
def initialTeacher : TeacherState :=
  { isSessionActive := false
    messages := []
    newMessage := ""
    connectedStudents := 0
    currentPoll := none
    pollQuestion := ""
    pollOptions := ["", ""] }

/-- Handler for `student-joined`, TeacherInterface.tsx lines 42-44:
the displayed count is set to the number carried by the event. -/
def handleStudentJoined (s : TeacherState) (count : Nat) : TeacherState :=
  { s with connectedStudents := count }

/-- Handler for `student-left`, TeacherInterface.tsx lines 46-48. -/
def handleStudentLeft (s : TeacherState) (count : Nat) : TeacherState :=
  { s with connectedStudents := count }

/-- Handler for `poll-response`, TeacherInterface.tsx lines 54-64:
if a poll is current, the count of the received option label is
incremented; if no poll is current the event is ignored.  The wire
payload is just `{option}` — it carries no participant id. -/
def handlePollResponse (s : TeacherState) (opt : String) : TeacherState :=
  match s.currentPoll with
  | some p => { s with currentPoll := some { p with responses := bump p.responses opt } }
  | none => s

/-- Option filter used by `createPoll`: `opt.trim()` truthiness,
TeacherInterface.tsx lines 142 and 145. -/
def nonBlank (o : String) : Bool := jsTrim o != ""

/-- `createPoll`, TeacherInterface.tsx lines 141-153: requires a
truthy (non-empty) question and at least two options that are
non-blank after trimming; blank options are filtered out of the
created poll; the new poll's responses start empty; the form is
reset; a single `poll-created` message is emitted.  When the guard
fails nothing happens.  Note the assignment `setCurrentPoll(poll)`
overwrites whatever poll was current. -/
def createPoll (s : TeacherState) : TeacherState × List Emit :=
  if s.pollQuestion ≠ "" ∧ 2 ≤ (s.pollOptions.filter nonBlank).length then
    let poll : Poll :=
      { question := s.pollQuestion
        options := s.pollOptions.filter nonBlank
        responses := [] }
    ({ s with currentPoll := some poll, pollQuestion := "", pollOptions := ["", ""] },
      [Emit.pollCreated poll])
  else (s, [])

/-- `closePoll`, TeacherInterface.tsx lines 155-158: emits
`poll-closed` with an empty payload and drops the current poll. -/
def closePoll (s : TeacherState) : TeacherState × List Emit :=
  ({ s with currentPoll := none }, [Emit.pollClosed])

/-- Teacher `sendChatMessage`, TeacherInterface.tsx lines 127-139:
guarded only on the trimmed text being non-empty; the untrimmed text
is appended verbatim and emitted. -/
def teacherSendChat (s : TeacherState) : TeacherState × List Emit :=
  if jsTrim s.newMessage ≠ "" then
    ({ s with messages := s.messages ++ [⟨"Teacher", s.newMessage⟩], newMessage := "" },
      [Emit.chatMessage "Teacher" s.newMessage])
  else (s, [])

/-- Student component state, from the `useState` hooks of
StudentInterface.tsx lines 34-43 (recordings, audio volume and the
simulated connection quality omitted: no claim touches them). -/
structure StudentState where
  studentName : String
  isInClass : Bool
  sessionActive : Bool
  messages : List ChatMessage
  newMessage : String
  currentPoll : Option Poll
  selectedPollOption : String
  hasVoted : Bool
deriving DecidableEq, Repr

/-- Initial student state; the name is the component constant
`studentName` (random suffix taken as an opaque parameter). -/
def initialStudent (name : String) : StudentState :=
  { studentName := name
    isInClass := false
    sessionActive := false
    messages := []
    newMessage := ""
    currentPoll := none
    selectedPollOption := ""
    hasVoted := false }

/-- Student `sendChatMessage`, StudentInterface.tsx lines 137-149:
the same shape as the teacher's — guarded only on the trimmed text,
with the student's name as sender.  The function itself performs no
check of `isInClass` or `sessionActive` (the UI merely sets the
`disabled` attribute on the input and button). -/
def studentSendChat (s : StudentState) : StudentState × List Emit :=
  if jsTrim s.newMessage ≠ "" then
    ({ s with messages := s.messages ++ [⟨s.studentName, s.newMessage⟩], newMessage := "" },
      [Emit.chatMessage s.studentName s.newMessage])
  else (s, [])

/-- `submitPollResponse`, StudentInterface.tsx lines 151-156: emits a
`poll-response` carrying only the selected option label, then latches
`hasVoted`; a no-op when nothing is selected or when already voted. -/
def submitPollResponse (s : StudentState) : StudentState × List Emit :=
  if s.selectedPollOption ≠ "" ∧ s.hasVoted = false then
    ({ s with hasVoted := true }, [Emit.pollResponse s.selectedPollOption])
  else (s, [])

/-- Everything that can touch the student component's state: the
socket event handlers registered in StudentInterface.tsx lines 53-111
and the user-triggered actions. -/
inductive StudentOp where
  | sessionStarted
  | sessionEnded
  | chatMessage (sender text : String)
  | pollCreated (p : Poll)
  | pollClosed
  | micToggle (isOn : Bool)
  | recordingStarted
  | recordingStopped
  | joinClass
  | leaveClass
  | typeMessage (t : String)
  | sendChat
  | selectOption (o : String)
  | submitPoll
deriving DecidableEq, Repr

/-- The student state machine, one case per handler or action of
StudentInterface.tsx.  `micToggle`, `recordingStarted` and
`recordingStopped` only log or refetch recordings and leave the
modelled state untouched. -/
def studentStep (s : StudentState) : StudentOp → StudentState × List Emit
  | .sessionStarted => ({ s with sessionActive := true }, [])
  | .sessionEnded => ({ s with sessionActive := false, isInClass := false }, [])
  | .chatMessage sender text =>
      ({ s with messages := s.messages ++ [⟨sender, text⟩] }, [])
  | .pollCreated p =>
      ({ s with currentPoll := some p, hasVoted := false, selectedPollOption := "" }, [])
  | .pollClosed => ({ s with currentPoll := none, hasVoted := false }, [])
  | .micToggle _ => (s, [])
  | .recordingStarted => (s, [])
  | .recordingStopped => (s, [])
  | .joinClass =>
      ({ s with isInClass := true },
        [Emit.joinRoomReq roomId, Emit.studentJoined s.studentName])
  | .leaveClass => ({ s with isInClass := false }, [Emit.studentLeft s.studentName])
  | .typeMessage t => ({ s with newMessage := t }, [])
  | .sendChat => studentSendChat s
  | .selectOption o => ({ s with selectedPollOption := o }, [])
  | .submitPoll => submitPollResponse s

/-- State owned by the useSocket hook, src/unnamed/part_001 lines
8-11: whether the socket object has been created, the `isConnected`
flag, and the user-visible error string. -/
structure SocketState where
  hasSocket : Bool
  isConnected : Bool
  error : String
deriving DecidableEq, Repr

/-- The error string set by `sendMessage` when not connected,
src/unnamed/part_001 line 65. -/
def notConnectedError : String := "Cannot send message. Not connected to server."

/-- `sendMessage`, src/unnamed/part_001 lines 61-67: when the socket
exists and is connected the event is emitted and the hook state is
untouched; otherwise nothing is emitted and the error string is set.
The function returns synchronously in both cases and never touches
any room state (its state is only the three hook fields). -/
def sendMessage (s : SocketState) (event payload : String) :
    SocketState × Option (String × String) :=
  if s.hasSocket && s.isConnected then (s, some (event, payload))
  else ({ s with error := notConnectedError }, none)

/-- `joinRoom`, src/unnamed/part_001 lines 69-73: emits `join-room`
under the same guard as `sendMessage`, but with no `else` branch —
when not connected it is a silent no-op that sets no error. -/
def joinRoom (s : SocketState) (room : String) :
    SocketState × Option (String × String) :=
  if s.hasSocket && s.isConnected then (s, some ("join-room", room)) else (s, none)

/-- `leaveRoom`, src/unnamed/part_001 lines 75-79: same shape as
`joinRoom` with the `leave-room` event. -/
def leaveRoom (s : SocketState) (room : String) :
    SocketState × Option (String × String) :=
  if s.hasSocket && s.isConnected then (s, some ("leave-room", room)) else (s, none)

/-- The spec's `phase = Connected` in terms of the hook state: a
created socket whose `isConnected` flag is set. -/
def connected (s : SocketState) : Bool := s.hasSocket && s.isConnected

/-- Connection phases of the spec's Connection Lifecycle Manager. -/
inductive ConnPhase where
  | Disconnected
  | Connecting
  | Connected
  | Reconnecting
  | Failed
deriving DecidableEq, Repr

/-- The `reason` argument of the socket.io `disconnect` event as the
handler at src/unnamed/part_001 lines 34-41 distinguishes it:
`"io server disconnect"` (server called `socket.disconnect()`),
`"io client disconnect"` (this client called `disconnect()`), and the
transport-fault reasons (ping timeout, transport close/error). -/
inductive DisconnectReason where
  | ioServerDisconnect
  | ioClientDisconnect
  | transportFault
deriving DecidableEq, Repr

/-- Side effects of the disconnect handler: `callConnect` is the
explicit `socketIo.connect()` call on line 39; `autoReconnect` stands
for socket.io-client's configured automatic reconnection
(`reconnectionAttempts: 5`, line 15), which engages for transport
faults but not for either kind of explicit disconnect. -/
inductive ConnAction where
  | callConnect
  | autoReconnect
deriving DecidableEq, Repr

/-- Connection lifecycle state: the spec phase together with the
hook's `isConnected` flag and error string. -/
structure ConnState where
  phase : ConnPhase
  isConnected : Bool
  error : String
deriving DecidableEq, Repr

/-- The `connect` handler, src/unnamed/part_001 lines 22-26. -/
def handleConnect (s : ConnState) : ConnState :=
  { s with phase := .Connected, isConnected := true, error := "" }

/-- The `disconnect` handler, src/unnamed/part_001 lines 34-41, with
socket.io-client reconnection semantics: `isConnected` is cleared in
every case; a server-initiated disconnect triggers the handler's own
`socketIo.connect()` call, so the client is attempting to reconnect
(phase `Reconnecting`); a transport fault leaves reconnection to the
configured automatic retries (also `Reconnecting`); only a
client-initiated disconnect stays down (`Disconnected`).  No branch
gives up into `Failed`. -/
def handleDisconnect (s : ConnState) : DisconnectReason → ConnState × List ConnAction
  | .ioServerDisconnect =>
      ({ s with phase := .Reconnecting, isConnected := false }, [.callConnect])
  | .transportFault =>
      ({ s with phase := .Reconnecting, isConnected := false }, [.autoReconnect])
  | .ioClientDisconnect =>
      ({ s with phase := .Disconnected, isConnected := false }, [])

/-- The `reconnect` handler, src/unnamed/part_001 lines 43-47. -/
def handleReconnect (s : ConnState) : ConnState :=
  { s with phase := .Connected, isConnected := true, error := "" }

/-- A join or leave event as delivered to the teacher's handlers.
The `pid` is the ground-truth identity of the participant the event
is about; the `payload` is the number the server put on the wire,
which is all the handlers at TeacherInterface.tsx lines 42-48 see. -/
inductive PresenceEvent where
  | joined (pid : String) (payload : Nat)
  | left (pid : String) (payload : Nat)
deriving DecidableEq, Repr

/-- The number carried on the wire by a presence event. -/
def payloadOf : PresenceEvent → Nat
  | .joined _ n => n
  | .left _ n => n

/-- Teacher handler dispatch for presence events. -/
def teacherPresenceStep (s : TeacherState) : PresenceEvent → TeacherState
  | .joined _ n => handleStudentJoined s n
  | .left _ n => handleStudentLeft s n

/-- The member count the teacher displays after a sequence of
presence events (the `connectedStudents` badge). -/
def observedCount (evts : List PresenceEvent) : Nat :=
  (evts.foldl teacherPresenceStep initialTeacher).connectedStudents

/-- Ground truth: the set (as a duplicate-free list) of participant
ids that have joined and not since left. -/
def applyPresence (m : List String) : PresenceEvent → List String
  | .joined pid _ => if m.contains pid then m else m ++ [pid]
  | .left pid _ => m.filter (fun q => q != pid)

/-- Participants currently present after a sequence of presence
events. -/
def activeParticipants (evts : List PresenceEvent) : List String :=
  evts.foldl applyPresence []

/-- The number of distinct participant ids with a join not yet
followed by a leave. -/
def derivedCount (evts : List PresenceEvent) : Nat :=
  (activeParticipants evts).length

/-- One vote as submitted by a participant.  The wire payload of
`poll-response` (StudentInterface.tsx line 153) carries only the
option label, so the teacher never sees `pid`. -/
structure VoteEvent where
  pid : String
  opt : String
deriving DecidableEq, Repr

/-- The option labels as they arrive at the teacher's
`poll-response` handler. -/
def wireOptions (seq : List VoteEvent) : List String :=
  seq.map VoteEvent.opt

/-- Feeding a sequence of received `poll-response` events through the
teacher's handler. -/
def runPollResponses (s : TeacherState) (os : List String) : TeacherState :=
  os.foldl handlePollResponse s

/-- The tally the teacher displays for one option label (the vote
badge at TeacherInterface.tsx line 328): the stored count of that
label, zero when no poll is current. -/
def pollTally (s : TeacherState) (k : String) : Nat :=
  match s.currentPoll with
  | some p => getCount p.responses k
  | none => 0

/-- The per-participant votes mapping of spec section 3: last write
per participant id wins.  This is the comparison side of the tally
equivalence claim, built from the spec's words, not from the code —
the code keeps no such mapping. -/
def lastWriteMap (seq : List (String × String)) : List (String × String) :=
  seq.foldl (fun m e => setKey m e.1 e.2) []

/-- Tally computed directly from a votes mapping: the number of
entries voting for the given option (spec section 4.3 `close()`). -/
def tallyOfMap : List (String × String) → String → Nat
  | [], _ => 0
  | e :: rest, k => (if e.2 = k then 1 else 0) + tallyOfMap rest k

/-- Occurrence count of an option label in a list of labels. -/
def countVotes : List String → String → Nat
  | [], _ => 0
  | o :: rest, k => (if o = k then 1 else 0) + countVotes rest k

/-- Run a student client through a list of operations, collecting the
emitted messages in order. -/
def runStudent (s : StudentState) (ops : List StudentOp) : StudentState × List Emit :=
  ops.foldl (fun acc op =>
    let r := studentStep acc.1 op
    (r.1, acc.2 ++ r.2)) (s, [])

/-- The option labels of the `poll-response` messages among a list of
emitted messages, in order. -/
def pollResponses (es : List Emit) : List String :=
  es.filterMap (fun e =>
    match e with
    | .pollResponse o => some o
    | _ => none)

/-- The poll of the spec's scenario: question `Q1`, options `A`, `B`,
no responses yet. -/
def pollAB : Poll := { question := "Q1", options := ["A", "B"], responses := [] }

/-- Teacher state with the scenario's poll form filled in. -/
def scenarioTeacher0 : TeacherState :=
  { initialTeacher with pollQuestion := "Q1", pollOptions := ["A", "B"] }

/-- Student1's run in the scenario: receive the poll, vote `A`, then
attempt to re-vote `B`. -/
def s1Run : StudentState × List Emit :=
  runStudent (initialStudent "Student1")
    [.pollCreated pollAB, .selectOption "A", .submitPoll, .selectOption "B", .submitPoll]

/-- Student2's run in the scenario: receive the poll and vote `B`. -/
def s2Run : StudentState × List Emit :=
  runStudent (initialStudent "Student2")
    [.pollCreated pollAB, .selectOption "B", .submitPoll]

/-- The teacher's state at close time in the scenario: the poll is
created, then every `poll-response` the student clients emitted is
processed.  Student1's re-vote attempt emits nothing (the `hasVoted`
latch), so the interleaving of the two clients' messages does not
matter: the wire carries exactly `A` then `B`. -/
def scenarioFinal : TeacherState :=
  runPollResponses (createPoll scenarioTeacher0).1
    (pollResponses s1Run.2 ++ pollResponses s2Run.2)

/-- A student who has not joined the class (room `Idle`) but typed a
message — the input to the Idle-chat claim. -/
def idleStudent : StudentState :=
  { initialStudent "Student1" with newMessage := "hello" }

/-- A created socket that is currently not connected. -/
def disconnectedSocket : SocketState :=
  { hasSocket := true, isConnected := false, error := "" }

/-- Teacher poll form holding a question, two non-blank options and
one blank option. -/
def blankOptState : TeacherState :=
  { initialTeacher with pollQuestion := "Q1", pollOptions := ["A", "B", ""] }

theorem getEntry?_setKey_self {α : Type} (m : List (String × α)) (k : String) (v : α) :
    getEntry? (setKey m k v) k = some v := by
  induction m with
  | nil => simp [setKey, getEntry?]
  | cons e rest ih =>
    by_cases h : e.1 = k
    · simp [setKey, h, getEntry?]
    · simp [setKey, h, getEntry?, ih]

theorem getEntry?_setKey_ne {α : Type} (m : List (String × α)) (k k' : String) (v : α)
    (hne : k' ≠ k) : getEntry? (setKey m k v) k' = getEntry? m k' := by
  induction m with
  | nil => simp [setKey, getEntry?, Ne.symm hne]
  | cons e rest ih =>
    by_cases h : e.1 = k
    · simp [setKey, h, getEntry?, Ne.symm hne]
    · simp [setKey, h, getEntry?, ih]

theorem getCount_bump (m : List (String × Nat)) (k k' : String) :
    getCount (bump m k) k' = getCount m k' + (if k = k' then 1 else 0) := by
  by_cases h : k = k'
  · subst h
    simp [bump, getCount, getEntry?_setKey_self]
  · simp [bump, getCount, getEntry?_setKey_ne m k k' _ (fun hh => h hh.symm), h]

theorem getCount_foldl_bump (os : List String) :
    ∀ (m : List (String × Nat)) (k : String),
      getCount (os.foldl bump m) k = getCount m k + countVotes os k := by
  induction os with
  | nil => intro m k; simp [countVotes]
  | cons o rest ih =>
    intro m k
    simp only [List.foldl_cons, ih (bump m o) k, getCount_bump, countVotes]
    by_cases h : o = k
    · simp [h]
      omega
    · simp [h]

theorem hasKey_cons {α : Type} (e : String × α) (rest : List (String × α)) (k : String) :
    hasKey (e :: rest) k = (if e.1 = k then true else hasKey rest k) := by
  by_cases h : e.1 = k <;> simp [hasKey, getEntry?, h]

theorem hasKey_append {α : Type} (m m' : List (String × α)) (k : String) :
    hasKey (m ++ m') k = (hasKey m k || hasKey m' k) := by
  induction m with
  | nil => simp [hasKey, getEntry?]
  | cons e rest ih =>
    by_cases h : e.1 = k <;> simp [hasKey_cons, h, ih]

theorem setKey_of_hasKey_false {α : Type} (m : List (String × α)) (k : String) (v : α)
    (h : hasKey m k = false) : setKey m k v = m ++ [(k, v)] := by
  induction m with
  | nil => simp [setKey]
  | cons e rest ih =>
    rw [hasKey_cons] at h
    by_cases he : e.1 = k
    · simp [he] at h
    · simp [he] at h
      simp [setKey, he, ih h]

theorem foldl_setKey_eq_append (seq : List (String × String)) :
    ∀ acc : List (String × String),
      (∀ q ∈ seq, hasKey acc q.1 = false) → (seq.map Prod.fst).Nodup →
      seq.foldl (fun m e => setKey m e.1 e.2) acc = acc ++ seq := by
  induction seq with
  | nil => intro acc _ _; simp
  | cons e rest ih =>
    intro acc hnk hnd
    simp only [List.map_cons, List.nodup_cons] at hnd
    obtain ⟨hmem, hnd'⟩ := hnd
    simp only [List.foldl_cons]
    rw [setKey_of_hasKey_false acc e.1 e.2 (hnk e (by simp))]
    rw [ih (acc ++ [(e.1, e.2)]) ?_ hnd']
    · simp
    · intro q hq
      rw [hasKey_append]
      have h1 : hasKey acc q.1 = false := hnk q (by simp [hq])
      have hne : e.1 ≠ q.1 := by
        intro hh
        exact hmem (by rw [hh]; exact List.mem_map_of_mem Prod.fst hq)
      have h2 : hasKey [(e.1, e.2)] q.1 = false := by
        simp [hasKey, getEntry?, hne]
      rw [h1, h2]
      rfl

theorem tallyOfMap_eq_countVotes (l : List (String × String)) (k : String) :
    tallyOfMap l k = countVotes (l.map Prod.snd) k := by
  induction l with
  | nil => rfl
  | cons e rest ih => simp [tallyOfMap, countVotes, ih]

theorem runPollResponses_currentPoll (os : List String) :
    ∀ (s : TeacherState) (p : Poll), s.currentPoll = some p →
      (runPollResponses s os).currentPoll =
        some { p with responses := os.foldl bump p.responses } := by
  induction os with
  | nil => intro s p h; exact h
  | cons o rest ih =>
    intro s p h
    have hstep : (handlePollResponse s o).currentPoll =
        some { p with responses := bump p.responses o } := by
      simp [handlePollResponse, h]
    exact ih (handlePollResponse s o) { p with responses := bump p.responses o } hstep

/-- C1 (counterexample): the claim asserts that for every vote
sequence while the poll is open the teacher's tally — produced by
folding received `poll-response` events — equals the tally of a
last-vote-per-participant mapping, with a re-voter contributing
exactly one counted vote.  It fails as soon as one participant id
votes twice: the wire payload carries no participant id, so the
handler at TeacherInterface.tsx lines 54-64 increments once per
received event.  On the sequence Student1 votes `A` then Student1
re-votes `B`, the code tallies `A` at 1 while the per-participant
mapping tallies `A` at 0. -/
theorem revote_breaks_fold_tally_equivalence :
    pollTally (runPollResponses { initialTeacher with currentPoll := some pollAB }
        (wireOptions [⟨"Student1", "A"⟩, ⟨"Student1", "B"⟩])) "A" ≠
      tallyOfMap (lastWriteMap (([⟨"Student1", "A"⟩, ⟨"Student1", "B"⟩] : List VoteEvent).map
        fun e => (e.pid, e.opt))) "A" ∧
    pollTally (runPollResponses { initialTeacher with currentPoll := some pollAB }
        (wireOptions [⟨"Student1", "A"⟩, ⟨"Student1", "B"⟩])) "A" = 1 ∧
    tallyOfMap (lastWriteMap (([⟨"Student1", "A"⟩, ⟨"Student1", "B"⟩] : List VoteEvent).map
        fun e => (e.pid, e.opt))) "A" = 0 := by
  decide

/-- C1 (amended): the equivalence holds for every vote sequence in
which each participant id appears at most once — which is exactly
what the compliant student client's `hasVoted` latch enforces.  For
such sequences, folding the received `poll-response` events through
the teacher's handler (starting from any fresh poll) yields, for
every option, the tally computed directly from the
last-write-wins per-participant votes mapping; in particular the
tally is then order-independent. -/
theorem fold_tally_eq_map_tally_of_nodup_voters
    (seq : List VoteEvent) (s : TeacherState) (p : Poll) (k : String)
    (hcur : s.currentPoll = some p) (hempty : p.responses = [])
    (hnodup : (seq.map VoteEvent.pid).Nodup) :
    pollTally (runPollResponses s (wireOptions seq)) k =
      tallyOfMap (lastWriteMap (seq.map fun e => (e.pid, e.opt))) k := by
  have h1 := runPollResponses_currentPoll (wireOptions seq) s p hcur
  have hfst : ((seq.map fun e => (e.pid, e.opt)).map Prod.fst) = seq.map VoteEvent.pid := by
    rw [List.map_map]
    rfl
  have h2 : lastWriteMap (seq.map fun e => (e.pid, e.opt)) =
      seq.map fun e => (e.pid, e.opt) := by
    unfold lastWriteMap
    rw [foldl_setKey_eq_append _ [] (fun q _ => rfl) (by rw [hfst]; exact hnodup)]
    simp
  rw [h2, tallyOfMap_eq_countVotes, List.map_map]
  simp only [pollTally, h1, hempty]
  rw [getCount_foldl_bump]
  show 0 + countVotes (wireOptions seq) k =
    countVotes (seq.map (Prod.snd ∘ fun e => (e.pid, e.opt))) k
  rw [Nat.zero_add]
  rfl

/-- Witness for the amended C1 at a concrete two-voter sequence. -/
theorem fold_tally_eq_map_tally_witness :
    pollTally (runPollResponses { initialTeacher with currentPoll := some pollAB }
        (wireOptions [⟨"Student1", "A"⟩, ⟨"Student2", "B"⟩])) "A" =
      tallyOfMap (lastWriteMap (([⟨"Student1", "A"⟩, ⟨"Student2", "B"⟩] : List VoteEvent).map
        fun e => (e.pid, e.opt))) "A" :=
  fold_tally_eq_map_tally_of_nodup_voters
    [⟨"Student1", "A"⟩, ⟨"Student2", "B"⟩]
    { initialTeacher with currentPoll := some pollAB } pollAB "A"
    rfl rfl (by decide)

/-- C2 (counterexample): the displayed member count is whatever
number the last delivered `student-joined`/`student-left` event
carried — an independent counter on the wire (the handlers at
TeacherInterface.tsx lines 42-48 store the received number directly),
not a value derived from the join/leave events.  Delivering a single
join of participant `p1` carrying payload 5 makes the teacher display
5, while exactly one distinct participant has joined and not left. -/
theorem observed_count_is_carried_payload :
    observedCount [PresenceEvent.joined "p1" 5] ≠
      derivedCount [PresenceEvent.joined "p1" 5] ∧
    observedCount [PresenceEvent.joined "p1" 5] = 5 ∧
    derivedCount [PresenceEvent.joined "p1" 5] = 1 := by
  decide

/-- C2 (amended): after any delivered sequence ending in a presence
event, the teacher's member count equals the count carried by that
last event; it equals the number of distinct joined-and-not-left
participant ids only under the assumption that the carried payload is
that number — presence is trusted from the wire, not derived from the
events by the client, so it drifts whenever the payload does. -/
theorem observed_count_eq_last_payload (evts : List PresenceEvent) (e : PresenceEvent) :
    observedCount (evts ++ [e]) = payloadOf e ∧
    (payloadOf e = derivedCount (evts ++ [e]) →
      observedCount (evts ++ [e]) = derivedCount (evts ++ [e])) := by
  have h1 : observedCount (evts ++ [e]) = payloadOf e := by
    unfold observedCount
    rw [List.foldl_append]
    cases e <;> rfl
  exact ⟨h1, fun h => h1.trans h⟩

/-- Witness for the amended C2 at a faithful single join. -/
theorem observed_count_eq_last_payload_witness :
    observedCount [PresenceEvent.joined "p1" 1] =
      derivedCount [PresenceEvent.joined "p1" 1] :=
  (observed_count_eq_last_payload [] (PresenceEvent.joined "p1" 1)).2 (by decide)

/-- C3 (counterexample): running the spec's scenario through the
actual client and teacher code does not give tally A:0, B:2.
Student1's re-vote attempt is suppressed by the client's `hasVoted`
latch (so `B` receives one vote, not two), and the earlier vote for
`A` is never retracted (the teacher has no participant id to
overwrite by). -/
theorem scenario_q1_tally_not_a0_b2 :
    ¬(pollTally scenarioFinal "A" = 0 ∧ pollTally scenarioFinal "B" = 2) := by
  decide

/-- C3 (amended): in the scenario — teacher creates poll `Q1` with
options `A`, `B`; Student1 votes `A`; Student2 votes `B`; Student1
re-votes `B` — the tally at close is A:1, B:1. -/
theorem scenario_q1_tally_a1_b1 :
    pollTally scenarioFinal "A" = 1 ∧ pollTally scenarioFinal "B" = 1 := by
  decide

/-- C4: a vote delivered after the poll has been closed leaves the
teacher's state — and hence the tally — unchanged: `closePoll`
(TeacherInterface.tsx lines 155-158) clears `currentPoll`, and the
`poll-response` handler (lines 54-64) ignores events when no poll is
current; this silent drop is the client-side rejection. -/
theorem vote_after_close_leaves_state_unchanged (s : TeacherState) (opt : String) :
    (closePoll s).1.currentPoll = none ∧
    handlePollResponse (closePoll s).1 opt = (closePoll s).1 :=
  ⟨rfl, rfl⟩

/-- C5: `sendMessage` forwards the message exactly when the
connection phase is Connected (a created socket whose `isConnected`
flag is set); otherwise it forwards nothing and reports the
"not connected" condition through the error string.  It returns
synchronously in both cases, and the only local state it can touch is
the hook's error string — the connection flags are preserved and the
function has no access to any room state. -/
theorem sendMessage_gated_on_connection (s : SocketState) (event payload : String) :
    ((sendMessage s event payload).2 = some (event, payload) ↔ connected s = true) ∧
    (connected s = true → sendMessage s event payload = (s, some (event, payload))) ∧
    (connected s = false →
      sendMessage s event payload = ({ s with error := notConnectedError }, none)) ∧
    (sendMessage s event payload).1.hasSocket = s.hasSocket ∧
    (sendMessage s event payload).1.isConnected = s.isConnected := by
  rcases s with ⟨hs, ic, err⟩
  cases hs <;> cases ic <;> simp [sendMessage, connected, notConnectedError]

/-- Witness for C5: a disconnected socket forwards nothing. -/
theorem sendMessage_gated_witness :
    sendMessage disconnectedSocket "chat-message" "hi" =
      ({ disconnectedSocket with error := notConnectedError }, none) :=
  (sendMessage_gated_on_connection disconnectedSocket "chat-message" "hi").2.2.1 rfl

/-- C6 (counterexample): `joinRoom` does not behave exactly as
`sendMessage` of the join message would: on a disconnected socket
`sendMessage` sets the "not connected" error string while `joinRoom`
has no `else` branch and reports nothing. -/
theorem joinRoom_silent_when_disconnected :
    joinRoom disconnectedSocket roomId ≠
      sendMessage disconnectedSocket "join-room" roomId ∧
    (joinRoom disconnectedSocket roomId).1.error = "" ∧
    (sendMessage disconnectedSocket "join-room" roomId).1.error = notConnectedError := by
  decide

/-- C6 (amended): `joinRoom` and `leaveRoom` are wrappers over the
same connectivity guard and emit exactly the message `sendMessage`
would emit for `join-room`/`leave-room`; but when not connected they
are silent no-ops — they never touch the hook state at all, and in
particular do not report the "not connected" condition. -/
theorem room_wrappers_emit_like_send (s : SocketState) (room : String) :
    (joinRoom s room).2 = (sendMessage s "join-room" room).2 ∧
    (leaveRoom s room).2 = (sendMessage s "leave-room" room).2 ∧
    (joinRoom s room).1 = s ∧ (leaveRoom s room).1 = s := by
  rcases s with ⟨hs, ic, err⟩
  cases hs <;> cases ic <;> simp [joinRoom, leaveRoom, sendMessage]

/-- C7 (counterexample): a student who has not joined the class (the
room is Idle: not in class, no session active) is not rejected by
`sendChatMessage` — the function at StudentInterface.tsx lines
137-149 checks only that the trimmed text is non-empty, so it appends
the message locally and emits it.  There is no `InvalidState`
rejection anywhere in the code. -/
theorem student_chat_sent_while_idle :
    idleStudent.isInClass = false ∧ idleStudent.sessionActive = false ∧
    (studentSendChat idleStudent).2 = [Emit.chatMessage "Student1" "hello"] ∧
    (studentSendChat idleStudent).1.messages = [⟨"Student1", "hello"⟩] := by
  decide

/-- C7 (amended): whenever the trimmed text is non-empty, the student
`sendChatMessage` appends and emits the untrimmed text verbatim
regardless of class or session state (the UI merely disables the
control while out of class), and the teacher's `sendChatMessage`
does the same at any time — neither inspects the content. -/
theorem chat_appends_verbatim (s : StudentState) (t : TeacherState)
    (hs : jsTrim s.newMessage ≠ "") (ht : jsTrim t.newMessage ≠ "") :
    studentSendChat s =
      ({ s with
          messages := s.messages ++ [⟨s.studentName, s.newMessage⟩]
          newMessage := "" },
        [Emit.chatMessage s.studentName s.newMessage]) ∧
    teacherSendChat t =
      ({ t with
          messages := t.messages ++ [⟨"Teacher", t.newMessage⟩]
          newMessage := "" },
        [Emit.chatMessage "Teacher" t.newMessage]) := by
  constructor
  · simp [studentSendChat, hs]
  · simp [teacherSendChat, ht]

/-- Witness for the amended C7: the idle student's pending message
and a teacher message both go out verbatim. -/
theorem chat_appends_verbatim_witness :
    studentSendChat idleStudent =
      ({ idleStudent with
          messages := [⟨"Student1", "hello"⟩]
          newMessage := "" },
        [Emit.chatMessage "Student1" "hello"]) ∧
    teacherSendChat { initialTeacher with newMessage := "hi" } =
      ({ initialTeacher with
          messages := [⟨"Teacher", "hi"⟩]
          newMessage := "" },
        [Emit.chatMessage "Teacher" "hi"]) :=
  chat_appends_verbatim idleStudent { initialTeacher with newMessage := "hi" }
    (by decide) (by decide)

/-- C8 (counterexample): poll creation does not require all options
to be non-empty — blank options are filtered out rather than causing
an `InvalidPoll` rejection.  With question `Q1` and options
`A`, `B`, `""`, `createPoll` succeeds and creates the two-option
poll. -/
theorem createPoll_accepts_blank_option :
    (createPoll blankOptState).1.currentPoll = some pollAB ∧
    (createPoll blankOptState).2 = [Emit.pollCreated pollAB] := by
  decide

/-- C8 (amended): `createPoll` requires a non-empty question and at
least two options that are non-blank after trimming; blank options
are dropped from the created poll rather than rejected; on failure it
is a silent no-op (no `InvalidPoll` report, no new poll); on success
the new poll — whose responses start empty — replaces whatever poll
was current, emitting only `poll-created` (no close or tally
broadcast for the replaced poll). -/
theorem createPoll_characterization (s : TeacherState) :
    (s.pollQuestion ≠ "" → 2 ≤ (s.pollOptions.filter nonBlank).length →
      createPoll s =
        ({ s with
            currentPoll := some
              { question := s.pollQuestion
                options := s.pollOptions.filter nonBlank
                responses := [] }
            pollQuestion := ""
            pollOptions := ["", ""] },
          [Emit.pollCreated
            { question := s.pollQuestion
              options := s.pollOptions.filter nonBlank
              responses := [] }])) ∧
    (¬(s.pollQuestion ≠ "" ∧ 2 ≤ (s.pollOptions.filter nonBlank).length) →
      createPoll s = (s, [])) := by
  constructor
  · intro h1 h2
    unfold createPoll
    rw [if_pos ⟨h1, h2⟩]
  · intro h
    unfold createPoll
    rw [if_neg h]

/-- Witness for the amended C8 at the scenario's valid form input. -/
theorem createPoll_characterization_witness :
    createPoll scenarioTeacher0 =
      ({ scenarioTeacher0 with
          currentPoll := some pollAB
          pollQuestion := ""
          pollOptions := ["", ""] },
        [Emit.pollCreated pollAB]) :=
  (createPoll_characterization scenarioTeacher0).1 (by decide) (by decide)

/-- C9: a server-initiated disconnect (`reason = "io server
disconnect"`) routes the client through Reconnecting — the handler at
src/unnamed/part_001 lines 34-41 clears `isConnected` and immediately
calls `socketIo.connect()` — and never transitions the client into
the terminal Failed state. -/
theorem server_disconnect_reconnects_not_failed (s : ConnState) :
    (handleDisconnect s .ioServerDisconnect).1.phase = ConnPhase.Reconnecting ∧
    (handleDisconnect s .ioServerDisconnect).1.phase ≠ ConnPhase.Failed ∧
    (handleDisconnect s .ioServerDisconnect).2 = [ConnAction.callConnect] := by
  refine ⟨rfl, ?_, rfl⟩
  intro h
  exact ConnPhase.noConfusion h

/-- C10: the student client's `hasVoted` latch.  Submitting with the
latch set is a complete no-op (nothing is emitted and the state is
untouched); a first successful submission emits exactly one
`poll-response` and sets the latch; and among all handlers and
actions of the student component, only the `poll-created` and
`poll-closed` events reset the latch. -/
theorem hasVoted_latch (s : StudentState) :
    (s.hasVoted = true → studentStep s .submitPoll = (s, [])) ∧
    (s.hasVoted = false → s.selectedPollOption ≠ "" →
      (studentStep s .submitPoll).1.hasVoted = true ∧
      (studentStep s .submitPoll).2 = [Emit.pollResponse s.selectedPollOption]) ∧
    (∀ op : StudentOp, (∀ p : Poll, op ≠ .pollCreated p) → op ≠ .pollClosed →
      s.hasVoted = true → (studentStep s op).1.hasVoted = true) := by
  refine ⟨?_, ?_, ?_⟩
  · intro h
    simp [studentStep, submitPollResponse, h]
  · intro h1 h2
    simp [studentStep, submitPollResponse, h1, h2]
  · intro op hnc hncl h
    cases op
    case pollCreated p => exact absurd rfl (hnc p)
    case pollClosed => exact absurd rfl hncl
    all_goals simp only [studentStep, studentSendChat, submitPollResponse]
    all_goals try split
    all_goals simp [h]

/-- Witness for C10: with the latch set, submitting again is a
no-op. -/
theorem hasVoted_latch_witness :
    studentStep { initialStudent "Student1" with hasVoted := true } .submitPoll =
      ({ initialStudent "Student1" with hasVoted := true }, []) :=
  (hasVoted_latch { initialStudent "Student1" with hasVoted := true }).1 rfl

end Classroom
